import Mathlib

/-!
Verification of the IPO notifier pipeline (src/main.py, src/discord.py).

The Python sources are shallowly embedded: the state file content, the
fetched feed response and the webhook POST outcome become inductive types;
each Python function becomes a Lean function over those types.  Logging
calls are recorded as values of `LogEvent`.  Machine-level concerns do not
arise (Python integers are unbounded, so `Int`/`Nat` model them exactly).
-/

namespace IpoNotifier

/-- One IPO entry as consumed by `create_discord_embed` and `main` in
src/main.py: the `ipoId` integer plus the textual fields read from the
feed JSON.  `rating` is nullable in the source, which falls back to the
literal N/A on a null or empty rating, hence `Option String` here. -/
structure Entry where
  ipoId : Int
  companyName : String
  stockSymbol : String
  sectorName : String
  shareType : String
  rating : Option String
  status : String
  pricePerUnit : String
  units : String
  minUnits : String
  maxUnits : String
  openingDateAD : String
  openingDateBS : String
  closingDateAD : String
  closingDateBS : String
  closingDateClosingTime : String
  shareRegistrar : String
  totalAmount : String
deriving Repr, DecidableEq

/-- Log events emitted by the embedded code, one constructor per logging
call site in src/main.py and src/discord.py (message text abstracted to
the data it carries). -/
inductive LogEvent where
  /-- logger.info in get_last_max_id when the state file does not exist. -/
  | noStateFile : LogEvent
  /-- logger.warning in get_last_max_id on a JSONDecodeError or KeyError. -/
  | invalidStateFile : LogEvent
  /-- logger.info after the shape check: number of fetched items. -/
  | fetchedItems (n : Nat) : LogEvent
  /-- logger.info listing the ids of the newly detected IPOs. -/
  | newIpos (ids : List Int) : LogEvent
  /-- logger.info after send_discord_alert returns. -/
  | discordAlertSent : LogEvent
  /-- logger.info in update_last_max_id after writing the state file. -/
  | updatedState (maxId : Int) : LogEvent
  /-- logger.info when no new IPOs were found: current and last max ids. -/
  | noNewIpos (currentMax lastSeen : Int) : LogEvent
  /-- logger.info in the else branch: nothing fetched or invalid response. -/
  | noIpoNews : LogEvent
  /-- print call at the start of send_discord_alert. -/
  | sendingWebhook : LogEvent
  /-- logger.error on an HTTPStatusError: status code and response body. -/
  | webhookFailed (status : Nat) (body : String) : LogEvent
  /-- logger.error on a RequestError: the failed request target. -/
  | requestFailed (target : String) : LogEvent
deriving Repr, DecidableEq

/-- Content of the state file restricted to the shapes on which
`get_last_max_id` returns normally with an integer: the file may be
missing, may fail to parse as JSON (this includes the empty file), or may
parse to an object whose `last_max_id` key is absent (`parsed none`) or
present with an integer value (`parsed (some v)`).  This is the restriction
the orchestrator-level claims quantify over; the full range of file
contents, including those on which the source raises or returns a
non-integer, is `StateFile` below, and `get_last_max_id_full_agrees`
relates the two readers on this common part.  The file is only ever
written by `update_last_max_id`, which produces exactly this shape. -/
inductive FileContent where
  | missing : FileContent
  | malformed : FileContent
  | parsed : Option Int → FileContent
deriving Repr, DecidableEq

/-- Embeds `get_last_max_id` (src/main.py lines 27-46) on the restricted
`FileContent` shapes, where it is total.  Returns the value together with
the log events emitted.  A missing file logs an info message and yields 0;
a JSON parse failure is caught and logs a warning, yielding 0; on a parsed
object the source evaluates `data.get("last_max_id", 0)`, which yields the
stored value, or 0 with no log when the key is absent (the
`except KeyError` clause is unreachable through `dict.get`).  See
`get_last_max_id_full` for the behavior on the remaining file contents. -/
def get_last_max_id : FileContent → Int × List LogEvent
  | .missing => (0, [.noStateFile])
  | .malformed => (0, [.invalidStateFile])
  | .parsed none => (0, [])
  | .parsed (some v) => (v, [])

/-- A JSON value stored under the `last_max_id` key.  The source returns
`data.get("last_max_id", 0)` without conversion, so a stored non-integer
is handed back as-is; `int` and `str` are distinguished and every other
JSON value (null, bool, float, array, object) is collapsed into `other`,
which suffices because the reader never inspects the value. -/
inductive StoredValue where
  | int : Int → StoredValue
  | str : String → StoredValue
  | other : StoredValue
deriving Repr, DecidableEq

/-- Content of the state file for the full state-read embedding:
missing, unparseable (including empty), parseable JSON that is not an
object — such as a bare list or scalar, on which the dict lookup raises
AttributeError — or an object with the `last_max_id` key absent or bound
to an arbitrary stored value. -/
inductive StateFile where
  | missing : StateFile
  | malformed : StateFile
  | nonObject : StateFile
  | object : Option StoredValue → StateFile
deriving Repr, DecidableEq

/-- The exception that escapes `get_last_max_id`: `data.get` on a
non-dict raises AttributeError, which `except (json.JSONDecodeError,
KeyError)` does not catch (it is absorbed only by the top-level handler
in `main`). -/
inductive StateReadExc where
  | attributeError : StateReadExc
deriving Repr, DecidableEq

/-- Embeds `get_last_max_id` (src/main.py lines 27-46) over the full
range of file contents.  A missing file logs an info message and yields
0; a parse failure is caught, logging a warning and yielding 0; parseable
non-object JSON makes `data.get` raise AttributeError past the except
clause, with no log from this function; on an object, `data.get` returns
the stored value unconverted, or 0 silently when the key is absent. -/
def get_last_max_id_full : StateFile → Except StateReadExc StoredValue × List LogEvent
  | .missing => (.ok (.int 0), [.noStateFile])
  | .malformed => (.ok (.int 0), [.invalidStateFile])
  | .nonObject => (.error .attributeError, [])
  | .object none => (.ok (.int 0), [])
  | .object (some v) => (.ok v, [])

/-- Injects the restricted file contents into the full state-file model:
object-shaped contents carrying integers (exactly what
`update_last_max_id` ever writes), plus the missing and unparseable
cases. -/
def fileContentToState : FileContent → StateFile
  | .missing => .missing
  | .malformed => .malformed
  | .parsed none => .object none
  | .parsed (some v) => .object (some (.int v))

/-- Embeds `update_last_max_id` (src/main.py lines 49-60): the state file
afterwards holds exactly the written integer, and an info event is logged. -/
def update_last_max_id (maxId : Int) : FileContent × List LogEvent :=
  (.parsed (some maxId), [.updatedState maxId])

/-- Embeds the list comprehension at src/main.py line 204:
`[item for item in all_data if item["ipoId"] > last_max_id]`. -/
def new_data (allData : List Entry) (lastMaxId : Int) : List Entry :=
  allData.filter (fun item => lastMaxId < item.ipoId)

/-- Python `max` over a nonempty list, folded from an accumulator. -/
def pyMax : Int → List Int → Int
  | acc, [] => acc
  | acc, x :: xs => pyMax (max acc x) xs

/-- Embeds src/main.py line 203:
`max(current_ids) if current_ids else 0`. -/
def max_current_id (currentIds : List Int) : Int :=
  match currentIds with
  | [] => 0
  | x :: xs => pyMax x xs

/-- The whitespace characters Python strips around a numeric literal in
`int(s)` (CPython Py_UNICODE_ISSPACE): the ASCII control range 09-0D,
1C-1F, space, NEL 85, NBSP A0, OGHAM 1680, the 2000-200A spaces, LINE and
PARAGRAPH separators 2028 and 2029, NNBSP 202F, MMSP 205F and IDEOGRAPHIC
SPACE 3000. -/
def pyIsSpace (c : Char) : Bool :=
  (0x09 ≤ c.toNat && c.toNat ≤ 0x0D) ||
  (0x1C ≤ c.toNat && c.toNat ≤ 0x1F) ||
  c.toNat = 0x20 || c.toNat = 0x85 || c.toNat = 0xA0 ||
  c.toNat = 0x1680 ||
  (0x2000 ≤ c.toNat && c.toNat ≤ 0x200A) ||
  c.toNat = 0x2028 || c.toNat = 0x2029 || c.toNat = 0x202F ||
  c.toNat = 0x205F || c.toNat = 0x3000

/-- Strips leading and trailing Python whitespace from a character list,
as `int(s)` does before parsing. -/
def stripWs (l : List Char) : List Char :=
  ((l.dropWhile pyIsSpace).reverse.dropWhile pyIsSpace).reverse

/-- First code points of the decades of decimal digits of the Unicode
15.0 Nd category (the digits `int(s)` accepts, CPython 3.12), each range
holding the digits 0 to 9 in order: ASCII, Arabic-Indic, Extended
Arabic-Indic, NKo, Devanagari, Bengali, Gurmukhi, Gujarati, Oriya, Tamil,
Telugu, Kannada, Malayalam, Sinhala, Thai, Lao, Tibetan, Myanmar, Myanmar
Shan, Khmer, Mongolian, Limbu, New Tai Lue, Tai Tham Hora, Tai Tham Tham,
Balinese, Sundanese, Lepcha, Ol Chiki, Vai, Saurashtra, Kayah Li,
Javanese, Myanmar Tai Laing, Cham, Meetei Mayek, Fullwidth, Osmanya,
Hanifi Rohingya, Brahmi, Sora Sompeng, Chakma, Sharada, Khudawadi, Newa,
Tirhuta, Modi, Takri, Ahom, Dives Akuru, Bhaiksuki, Masaram Gondi,
Gunjala Gondi, Kawi, Mro, Tangsa, Pahawh Hmong, Nyiakeng Puachue Hmong,
Wancho, Nag Mundari, Adlam and the segmented digits; the mathematical
alphanumeric digits 1D7CE-1D7FF are handled separately as five
consecutive decades. -/
def ndRangeStarts : List Nat :=
  [0x0030, 0x0660, 0x06F0, 0x07C0, 0x0966, 0x09E6, 0x0A66, 0x0AE6, 0x0B66,
   0x0BE6, 0x0C66, 0x0CE6, 0x0D66, 0x0DE6, 0x0E50, 0x0ED0, 0x0F20, 0x1040,
   0x1090, 0x17E0, 0x1810, 0x1946, 0x19D0, 0x1A80, 0x1A90, 0x1B50, 0x1BB0,
   0x1C40, 0x1C50, 0xA620, 0xA8D0, 0xA900, 0xA9D0, 0xA9F0, 0xAA50, 0xABF0,
   0xFF10, 0x104A0, 0x10D30, 0x11066, 0x110F0, 0x11136, 0x111D0, 0x112F0,
   0x11450, 0x114D0, 0x11650, 0x116C0, 0x11730, 0x11950, 0x11C50, 0x11D50,
   0x11DA0, 0x11F50, 0x16A60, 0x16AC0, 0x16B50, 0x1E140, 0x1E2F0, 0x1E4F0,
   0x1E950, 0x1FBF0]

/-- The numeric value of a Unicode decimal digit, `none` for any other
character: the digits Python `int(s)` accepts. -/
def decDigitVal (c : Char) : Option Nat :=
  if 0x1D7CE ≤ c.toNat && c.toNat ≤ 0x1D7FF then some ((c.toNat - 0x1D7CE) % 10)
  else ndRangeStarts.findSome? fun s =>
    if s ≤ c.toNat && c.toNat ≤ s + 9 then some (c.toNat - s) else none

/-- Digit accumulation after the first digit, with PEP 515 underscore
grouping: a single underscore is allowed only between two digits. -/
def pyDigitsCore : List Char → Nat → Option Nat
  | [], acc => some acc
  | ['_'], _ => none
  | '_' :: c :: rest, acc =>
    match decDigitVal c with
    | some d => pyDigitsCore rest (10 * acc + d)
    | none => none
  | c :: rest, acc =>
    match decDigitVal c with
    | some d => pyDigitsCore rest (10 * acc + d)
    | none => none

/-- A nonempty unsigned numeral: a decimal digit followed by digits with
optional single underscores between them. -/
def pyIntDigits : List Char → Option Nat
  | [] => none
  | c :: rest =>
    match decDigitVal c with
    | some d => pyDigitsCore rest d
    | none => none

/-- Models Python `int(s)` on a string: surrounding whitespace is
stripped, an optional single ASCII sign is accepted, and the remainder
must be a nonempty run of Unicode decimal digits with optional PEP 515
underscores between digits; anything else raises ValueError, modelled as
`none`. -/
def pyInt (s : String) : Option Int :=
  match stripWs s.data with
  | [] => none
  | '-' :: rest => (pyIntDigits rest).map fun n => -(n : Int)
  | '+' :: rest => (pyIntDigits rest).map fun n => (n : Int)
  | l => (pyIntDigits l).map fun n => (n : Int)

/-- One pass of the comma-grouping over the reversed digit list: `k`
counts digits emitted since the last comma; after every third digit a
comma is inserted before the next one.  This is the digit-grouping
performed by the format specification used at src/main.py line 74. -/
def addCommasRev : List Char → Nat → List Char
  | [], _ => []
  | c :: cs, k =>
    if k = 3 then ',' :: c :: addCommasRev cs 1
    else c :: addCommasRev cs (k + 1)

/-- Inserts a comma every three digits counted from the right. -/
def insertCommas (l : List Char) : List Char :=
  (addCommasRev l.reverse 0).reverse

/-- Renders an integer the way the Python format specification for
thousands separators does: minus sign, then the decimal digits with a
comma every three digits from the right (the sign is not grouped). -/
def intGrouped (n : Int) : String :=
  if n < 0 then String.mk ('-' :: insertCommas (Nat.toDigits 10 n.natAbs))
  else String.mk (insertCommas (Nat.toDigits 10 n.natAbs))

/-- Embeds `format_number` (src/main.py lines 63-76): group the parsed
integer with commas, or return the input unchanged on ValueError. -/
def format_number (number : String) : String :=
  match pyInt number with
  | some n => intGrouped n
  | none => number

/-- Python `str.lower` restricted to ASCII case folding. -/
def pyLower (s : String) : String :=
  String.mk (s.data.map Char.toLower)

/-- Python `str.capitalize`: first character upper-cased, the rest
lower-cased (ASCII case folding). -/
def pyCapitalize (s : String) : String :=
  match s.data with
  | [] => ""
  | c :: rest => String.mk (Char.toUpper c :: rest.map Char.toLower)

/-- Embeds the Python truthiness idiom at src/main.py line 101 for the
rating field: a null rating, and also an empty string, fall back to the
literal N/A. -/
def ratingOrNA : Option String → String
  | none => "N/A"
  | some r => if r = "" then "N/A" else r

/-- One labelled field of a Discord embed. -/
structure EmbedField where
  name : String
  value : String
  inline : Bool
deriving Repr, DecidableEq

/-- One Discord embed section as built at src/main.py lines 104-157. -/
structure Embed where
  title : String
  description : String
  color : Nat
  fields : List EmbedField
  thumbnailUrl : String
  footerText : String
  timestamp : String
deriving Repr, DecidableEq

/-- The webhook payload built at src/main.py lines 160-164. -/
structure Payload where
  username : String
  avatarUrl : String
  embeds : List Embed
deriving Repr, DecidableEq

/-- The embed built for one entry in the loop body of
`create_discord_embed` (src/main.py lines 92-158).  `now` stands for the
render-time timestamp string (the source formats the current time in the
fixed UTC+5:30 offset; the clock is a parameter of the embedding). -/
def buildEmbed (now : String) (ipo : Entry) : Embed :=
  { title := ipo.companyName ++ " (" ++ ipo.stockSymbol ++ ")"
    description := "**Sector**: " ++ ipo.sectorName ++ "\n**Share Type**: "
      ++ pyCapitalize ipo.shareType ++ "\n**Rating**: " ++ ratingOrNA ipo.rating
    color := if pyLower ipo.status = "open" then 0x00FF00 else 0xFF0000
    fields :=
      [ { name := "📊 Status", value := ipo.status, inline := true }
      , { name := "💵 Price per Unit", value := "NPR " ++ ipo.pricePerUnit, inline := true }
      , { name := "📈 Total Units", value := format_number ipo.units, inline := true }
      , { name := "🔢 Min/Max Units"
        , value := format_number ipo.minUnits ++ " / " ++ format_number ipo.maxUnits
        , inline := true }
      , { name := "📅 Opening Date"
        , value := ipo.openingDateAD ++ " (" ++ ipo.openingDateBS ++ ")"
        , inline := true }
      , { name := "🕒 Closing Date"
        , value := ipo.closingDateAD ++ " (" ++ ipo.closingDateBS ++ ") at "
            ++ ipo.closingDateClosingTime
        , inline := true }
      , { name := "🏢 Share Registrar", value := ipo.shareRegistrar, inline := true }
      , { name := "💰 Total Amount"
        , value := "NPR " ++ format_number ipo.totalAmount
        , inline := true } ]
    thumbnailUrl := "https://www.svgrepo.com/show/483222/stock-market.svg"
    footerText := "Reported by IPO Notifier Bot | @dev-sandip"
    timestamp := now }

/-- Embeds `create_discord_embed` (src/main.py lines 79-164): the loop
appends one embed per element of `ipo_data[:3]`, then wraps them with the
fixed sender name and icon. -/
def create_discord_embed (now : String) (ipo_data : List Entry) : Payload :=
  { username := "IPO Notifier"
    avatarUrl := "https://img.icons8.com/fluency/48/000000/bullish.png"
    embeds := (ipo_data.take 3).map (buildEmbed now) }

/-- Outcome of the feed request as seen by `main` after `IPONews`
(src/main.py lines 10-24, 193): `failed` is `IPONews` returning `None`
(non-200 HTTP status); `body sc d` is a parsed JSON body with optional
`statusCode` and the optional list at `result.data` (`d = none` models a
missing `result` or `data` key). -/
inductive FetchOutcome where
  | failed : FetchOutcome
  | body : Option Int → Option (List Entry) → FetchOutcome
deriving Repr, DecidableEq

/-- Embeds the shape check at src/main.py line 194:
`ipo_news and ipo_news.get("statusCode") == 200 and
ipo_news.get("result", {}).get("data")`.  The last conjunct is a Python
truthiness test, so an empty `data` list fails the check exactly like a
missing key. -/
def usableData : FetchOutcome → Option (List Entry)
  | .failed => none
  | .body sc d =>
    if sc = some 200 then
      match d with
      | some entries => if entries.isEmpty then none else some entries
      | none => none
    else none

/-- Observable result of one run of `main` (src/main.py lines 167-221)
from the fetch outcome onward: the diffed new entries, the payload handed
to `send_discord_alert` (if any), the value written to the state file (if
any), the state file content after the run, and the log events. -/
structure RunResult where
  newEntries : List Entry
  sent : Option Payload
  written : Option Int
  fileAfter : FileContent
  logs : List LogEvent
deriving Repr, DecidableEq

/-- Embeds the body of `main` (src/main.py lines 192-221) given the fetch
outcome and the prior state file content.  Configuration loading (lines
172-190) only selects the URLs and is not modelled; `now` is the render
timestamp passed through to `create_discord_embed`.  On the happy path
the source reads the state, filters `new_data`, truncates to three
entries, sends the embed and persists `max_current_id`; when `new_data`
is empty it only logs; when the shape check fails it logs and leaves the
state untouched.  The state file is taken in the restricted `FileContent`
shape, on which the read is total with an integer result (the shape
`update_last_max_id` always writes); on the remaining contents of
`StateFile` the read raises and the source run is absorbed by the
top-level handler with no write and no send, outside these claims. -/
def runMain (now : String) (fetch : FetchOutcome) (file : FileContent) : RunResult :=
  match usableData fetch with
  | none =>
    { newEntries := [], sent := none, written := none, fileAfter := file
      logs := [.noIpoNews] }
  | some allData =>
    let stateRead := get_last_max_id file
    let lastMaxId := stateRead.1
    let currentIds := allData.map Entry.ipoId
    let maxCurrentId := max_current_id currentIds
    let newData := new_data allData lastMaxId
    if newData.isEmpty then
      { newEntries := newData, sent := none, written := none, fileAfter := file
        logs := [.fetchedItems allData.length] ++ stateRead.2
          ++ [.noNewIpos maxCurrentId lastMaxId] }
    else
      let payload := create_discord_embed now (newData.take 3)
      let upd := update_last_max_id maxCurrentId
      { newEntries := newData, sent := some payload, written := some maxCurrentId
        fileAfter := upd.1
        logs := [.fetchedItems allData.length] ++ stateRead.2
          ++ [.newIpos (newData.map Entry.ipoId), .discordAlertSent] ++ upd.2 }

/-- Outcome of the webhook POST in src/discord.py: either a response with
a status code and body text, or a transport failure (httpx RequestError)
carrying the request target. -/
inductive PostOutcome where
  | response : Nat → String → PostOutcome
  | transportFailure : String → PostOutcome
deriving Repr, DecidableEq

/-- The 2xx success range: httpx `raise_for_status` raises for any other
status. -/
def isSuccessStatus (s : Nat) : Bool :=
  200 ≤ s && s < 300

/-- The exceptions that `httpx.post` plus `raise_for_status` can raise at
src/discord.py lines 12-13. -/
inductive PyExc where
  | httpStatusError : Nat → String → PyExc
  | requestFailure : String → PyExc
deriving Repr, DecidableEq

/-- The try-block body of `send_discord_alert`: post, then
`raise_for_status`, which raises `HTTPStatusError` on a non-2xx status;
a transport failure surfaces as a `RequestError`. -/
def postAndRaise : PostOutcome → Except PyExc Unit
  | .response s body => if isSuccessStatus s then .ok () else .error (.httpStatusError s body)
  | .transportFailure t => .error (.requestFailure t)

/-- Embeds `send_discord_alert` (src/discord.py lines 8-19): print the
sending line, run the POST, and catch both `HTTPStatusError` (logging the
status code and response body) and `RequestError` (logging the request
target); the function always returns normally, never re-raising. -/
def send_discord_alert (outcome : PostOutcome) : Except PyExc Unit × List LogEvent :=
  match postAndRaise outcome with
  | .ok () => (.ok (), [.sendingWebhook])
  | .error (.httpStatusError s body) => (.ok (), [.sendingWebhook, .webhookFailed s body])
  | .error (.requestFailure t) => (.ok (), [.sendingWebhook, .requestFailed t])

/-- Sample entry used to instantiate theorems with hypotheses on concrete
inputs: all textual fields fixed, the identifier given. -/
def mkEntry (i : Int) : Entry :=
  { ipoId := i
    companyName := "Acme"
    stockSymbol := "ACME"
    sectorName := "Banking"
    shareType := "ordinary"
    rating := none
    status := "Open"
    pricePerUnit := "100"
    units := "1000000"
    minUnits := "10"
    maxUnits := "5000"
    openingDateAD := "2025-01-01"
    openingDateBS := "2081-09-17"
    closingDateAD := "2025-01-05"
    closingDateBS := "2081-09-21"
    closingDateClosingTime := "17:00"
    shareRegistrar := "XYZ Capital"
    totalAmount := "100000000" }

/-! Helper lemmas. -/

/-- The accumulator is a lower bound of `pyMax`. -/
theorem le_pyMax (acc : Int) (xs : List Int) : acc ≤ pyMax acc xs := by
  induction xs generalizing acc with
  | nil => exact le_refl acc
  | cons x xs ih =>
    calc acc ≤ max acc x := le_max_left acc x
    _ ≤ pyMax (max acc x) xs := ih (max acc x)

/-- Every listed element is a lower bound of `pyMax`. -/
theorem mem_le_pyMax (acc : Int) (xs : List Int) : ∀ x ∈ xs, x ≤ pyMax acc xs := by
  induction xs generalizing acc with
  | nil => intro x hx; cases hx
  | cons y ys ih =>
    intro x hx
    rcases List.mem_cons.mp hx with h | h
    · subst h
      calc x ≤ max acc x := le_max_right acc x
      _ ≤ pyMax (max acc x) ys := le_pyMax (max acc x) ys
    · exact ih (max acc y) x h

/-- `pyMax` returns its accumulator or a listed element. -/
theorem pyMax_mem (acc : Int) (xs : List Int) : pyMax acc xs = acc ∨ pyMax acc xs ∈ xs := by
  induction xs generalizing acc with
  | nil => exact Or.inl rfl
  | cons y ys ih =>
    rcases ih (max acc y) with h | h
    · rcases max_choice acc y with hm | hm
      · exact Or.inl (by simpa [pyMax, hm] using h)
      · refine Or.inr (List.mem_cons.mpr (Or.inl ?_))
        simpa [pyMax, hm] using h
    · exact Or.inr (List.mem_cons.mpr (Or.inr (by simpa [pyMax] using h)))

/-- Every identifier in the list is bounded by `max_current_id`. -/
theorem le_max_current_id (ids : List Int) : ∀ i ∈ ids, i ≤ max_current_id ids := by
  intro i hi
  match ids, hi with
  | x :: xs, hi =>
    rcases List.mem_cons.mp hi with h | h
    · subst h; exact le_pyMax i xs
    · exact mem_le_pyMax x xs i h

/-- On a nonempty list, `max_current_id` is one of the listed values. -/
theorem max_current_id_mem (ids : List Int) (h : ids ≠ []) : max_current_id ids ∈ ids := by
  match ids, h with
  | x :: xs, _ =>
    rcases pyMax_mem x xs with h1 | h1
    · exact List.mem_cons.mpr (Or.inl (by simpa [max_current_id] using h1))
    · exact List.mem_cons.mpr (Or.inr (by simpa [max_current_id] using h1))

/-- Counting an element of a filtered list. -/
theorem count_filter_eq (p : Entry → Bool) (l : List Entry) (a : Entry) :
    (l.filter p).count a = if p a then l.count a else 0 := by
  induction l with
  | nil => simp
  | cons x xs ih =>
    by_cases hax : a = x
    · subst hax
      by_cases hpa : p a
      · simp [List.filter_cons, hpa, List.count_cons, ih]
      · simp [List.filter_cons, hpa, ih]
    · by_cases hpx : p x
      · simp [List.filter_cons, hpx, List.count_cons, hax, ih]
      · simp [List.filter_cons, hpx, List.count_cons, hax, ih]

/-- Abort branch of `main`: a failed fetch or a shape-check failure
leaves everything untouched and only logs. -/
theorem runMain_no_usable (now : String) (fetch : FetchOutcome) (file : FileContent)
    (h : usableData fetch = none) :
    runMain now fetch file = ⟨[], none, none, file, [.noIpoNews]⟩ := by
  unfold runMain
  rw [h]

/-- Skip branch of `main`: usable data but no new entries. -/
theorem runMain_skip (now : String) (fetch : FetchOutcome) (file : FileContent)
    (allData : List Entry) (h1 : usableData fetch = some allData)
    (h2 : new_data allData (get_last_max_id file).1 = []) :
    runMain now fetch file =
      ⟨[], none, none, file,
        [.fetchedItems allData.length] ++ (get_last_max_id file).2
          ++ [.noNewIpos (max_current_id (allData.map Entry.ipoId))
                (get_last_max_id file).1]⟩ := by
  unfold runMain
  rw [h1]
  simp only [h2, List.isEmpty_nil, if_true]

/-- Notify branch of `main`: usable data with nonempty new entries. -/
theorem runMain_notify (now : String) (fetch : FetchOutcome) (file : FileContent)
    (allData : List Entry) (h1 : usableData fetch = some allData)
    (h2 : new_data allData (get_last_max_id file).1 ≠ []) :
    runMain now fetch file =
      ⟨new_data allData (get_last_max_id file).1,
        some (create_discord_embed now ((new_data allData (get_last_max_id file).1).take 3)),
        some (max_current_id (allData.map Entry.ipoId)),
        .parsed (some (max_current_id (allData.map Entry.ipoId))),
        [.fetchedItems allData.length] ++ (get_last_max_id file).2
          ++ [.newIpos ((new_data allData (get_last_max_id file).1).map Entry.ipoId),
              .discordAlertSent]
          ++ [.updatedState (max_current_id (allData.map Entry.ipoId))]⟩ := by
  unfold runMain
  rw [h1]
  have he : (new_data allData (get_last_max_id file).1).isEmpty = false := by
    cases hnd : new_data allData (get_last_max_id file).1 with
    | nil => exact absurd hnd h2
    | cons a t => rfl
  simp only [he, Bool.false_eq_true, if_false]
  rfl

/-! Claim theorems. -/

/-- C1: for every prior-state value `m` and fetched entry list `S`, the
diff step produces `new_data` equal to exactly those entries of `S` whose
`ipoId` is strictly greater than `m` — membership and multiplicity agree
with that description — and, being a sublist of `S`, it preserves the
relative order the entries had in `S`. -/
theorem c1_new_entries_exact (S : List Entry) (m : Int) :
    (new_data S m).Sublist S ∧
    (∀ e : Entry, e ∈ new_data S m ↔ e ∈ S ∧ m < e.ipoId) ∧
    (∀ e : Entry, (new_data S m).count e = if m < e.ipoId then S.count e else 0) := by
  refine ⟨List.filter_sublist S, ?_, ?_⟩
  · intro e
    simp [new_data, List.mem_filter]
  · intro e
    simpa using count_filter_eq (fun item => decide (m < item.ipoId)) S e

/-- C2: the diff step computes `max_current_id` equal to the maximum
`ipoId` over all fetched entries when the list is nonempty — it is one of
the listed identifiers and an upper bound for all of them — and 0 when
the fetched list is empty. -/
theorem c2_new_max_id (S : List Entry) :
    (S = [] → max_current_id (S.map Entry.ipoId) = 0) ∧
    (S ≠ [] →
      max_current_id (S.map Entry.ipoId) ∈ S.map Entry.ipoId ∧
      ∀ e ∈ S, e.ipoId ≤ max_current_id (S.map Entry.ipoId)) := by
  constructor
  · intro h; subst h; rfl
  · intro h
    refine ⟨max_current_id_mem _ (by simpa using h), ?_⟩
    intro e he
    exact le_max_current_id (S.map Entry.ipoId) e.ipoId (List.mem_map_of_mem Entry.ipoId he)

/-- C2 witness: instantiation on the two-entry list with identifiers 5
and 3, and on the empty list. -/
theorem c2_new_max_id_witness :
    max_current_id (([mkEntry 5, mkEntry 3]).map Entry.ipoId) ∈
      ([mkEntry 5, mkEntry 3]).map Entry.ipoId ∧
    (∀ e ∈ [mkEntry 5, mkEntry 3], e.ipoId ≤
      max_current_id (([mkEntry 5, mkEntry 3]).map Entry.ipoId)) ∧
    max_current_id (([] : List Entry).map Entry.ipoId) = 0 := by
  refine ⟨?_, ?_, (c2_new_max_id []).1 rfl⟩
  · exact ((c2_new_max_id [mkEntry 5, mkEntry 3]).2 (by simp)).1
  · exact ((c2_new_max_id [mkEntry 5, mkEntry 3]).2 (by simp)).2

/-- C1 witness: instantiation on the list with identifiers 1 and 5
against watermark 3. -/
theorem c1_new_entries_exact_witness :
    (new_data [mkEntry 1, mkEntry 5] 3).Sublist [mkEntry 1, mkEntry 5] ∧
    (mkEntry 5 ∈ new_data [mkEntry 1, mkEntry 5] 3 ↔
      mkEntry 5 ∈ [mkEntry 1, mkEntry 5] ∧ (3 : Int) < (mkEntry 5).ipoId) ∧
    ((new_data [mkEntry 1, mkEntry 5] 3).count (mkEntry 1) =
      if (3 : Int) < (mkEntry 1).ipoId then ([mkEntry 1, mkEntry 5]).count (mkEntry 1)
      else 0) :=
  ⟨(c1_new_entries_exact [mkEntry 1, mkEntry 5] 3).1,
    (c1_new_entries_exact [mkEntry 1, mkEntry 5] 3).2.1 (mkEntry 5),
    (c1_new_entries_exact [mkEntry 1, mkEntry 5] 3).2.2 (mkEntry 1)⟩

/-- C3: for every run that completes with a nonempty `new_entries`, the
watermark readable from the state file after the run is at least the
watermark read before the run, so `last_max_id` is monotonically
non-decreasing across successful runs. -/
theorem c3_watermark_monotone (now : String) (fetch : FetchOutcome) (file : FileContent)
    (h : (runMain now fetch file).newEntries ≠ []) :
    (get_last_max_id file).1 ≤ (get_last_max_id (runMain now fetch file).fileAfter).1 := by
  cases hu : usableData fetch with
  | none =>
    rw [runMain_no_usable now fetch file hu] at h
    exact absurd rfl h
  | some allData =>
    by_cases hnd : new_data allData (get_last_max_id file).1 = []
    · rw [runMain_skip now fetch file allData hu hnd] at h
      exact absurd rfl h
    · rw [runMain_notify now fetch file allData hu hnd]
      obtain ⟨e, he⟩ := List.exists_mem_of_ne_nil _ hnd
      have hmem : e ∈ allData ∧ (get_last_max_id file).1 < e.ipoId := by
        simpa [new_data, List.mem_filter] using he
      have hle : e.ipoId ≤ max_current_id (allData.map Entry.ipoId) :=
        le_max_current_id (allData.map Entry.ipoId) e.ipoId
          (List.mem_map_of_mem Entry.ipoId hmem.1)
      exact le_of_lt (lt_of_lt_of_le hmem.2 hle)

/-- C3 witness: a run over a single fetched entry with identifier 5 and
prior watermark 3 produces new entries and advances the readable
watermark. -/
theorem c3_watermark_monotone_witness :
    (runMain "t" (.body (some 200) (some [mkEntry 5])) (.parsed (some 3))).newEntries ≠ [] ∧
    (get_last_max_id (.parsed (some 3))).1 ≤
      (get_last_max_id
        (runMain "t" (.body (some 200) (some [mkEntry 5])) (.parsed (some 3))).fileAfter).1 :=
  ⟨by decide, c3_watermark_monotone "t" (.body (some 200) (some [mkEntry 5]))
    (.parsed (some 3)) (by decide)⟩

/-- C4: running the pipeline twice in immediate succession on the same
fetch outcome yields an empty `new_entries` on the second run, no state
write on the second run, and an unchanged state file. -/
theorem c4_second_run_idempotent (now1 now2 : String) (fetch : FetchOutcome)
    (file : FileContent) :
    (runMain now2 fetch (runMain now1 fetch file).fileAfter).newEntries = [] ∧
    (runMain now2 fetch (runMain now1 fetch file).fileAfter).written = none ∧
    (runMain now2 fetch (runMain now1 fetch file).fileAfter).fileAfter =
      (runMain now1 fetch file).fileAfter := by
  cases hu : usableData fetch with
  | none =>
    rw [runMain_no_usable now1 fetch file hu]
    rw [runMain_no_usable now2 fetch file hu]
    exact ⟨rfl, rfl, rfl⟩
  | some allData =>
    by_cases hnd : new_data allData (get_last_max_id file).1 = []
    · rw [runMain_skip now1 fetch file allData hu hnd]
      rw [runMain_skip now2 fetch file allData hu hnd]
      exact ⟨rfl, rfl, rfl⟩
    · rw [runMain_notify now1 fetch file allData hu hnd]
      have h2 : new_data allData
          (get_last_max_id (FileContent.parsed
            (some (max_current_id (allData.map Entry.ipoId))))).1 = [] := by
        refine List.filter_eq_nil_iff.mpr ?_
        intro e he
        simp only [get_last_max_id, decide_eq_true_eq, not_lt]
        exact le_max_current_id (allData.map Entry.ipoId) e.ipoId
          (List.mem_map_of_mem Entry.ipoId he)
      rw [runMain_skip now2 fetch _ allData hu h2]
      exact ⟨rfl, rfl, rfl⟩

/-- C4 witness: instantiation on a fetched entry with identifier 5 and
prior watermark 3 — the second immediate run finds nothing new and does
not touch the state. -/
theorem c4_second_run_idempotent_witness :
    (runMain "u" (.body (some 200) (some [mkEntry 5]))
      (runMain "t" (.body (some 200) (some [mkEntry 5]))
        (.parsed (some 3))).fileAfter).newEntries = [] ∧
    (runMain "u" (.body (some 200) (some [mkEntry 5]))
      (runMain "t" (.body (some 200) (some [mkEntry 5]))
        (.parsed (some 3))).fileAfter).written = none ∧
    (runMain "u" (.body (some 200) (some [mkEntry 5]))
      (runMain "t" (.body (some 200) (some [mkEntry 5]))
        (.parsed (some 3))).fileAfter).fileAfter =
      (runMain "t" (.body (some 200) (some [mkEntry 5]))
        (.parsed (some 3))).fileAfter :=
  c4_second_run_idempotent "t" "u" (.body (some 200) (some [mkEntry 5]))
    (.parsed (some 3))

/-- C8: when the fetch succeeds with usable data but no entry is newer
than the watermark, the run sends nothing, writes nothing, leaves the
state file unchanged, and logs the current and last max identifiers. -/
theorem c8_skip_is_pure (now : String) (fetch : FetchOutcome) (file : FileContent)
    (allData : List Entry) (h1 : usableData fetch = some allData)
    (h2 : new_data allData (get_last_max_id file).1 = []) :
    (runMain now fetch file).sent = none ∧
    (runMain now fetch file).written = none ∧
    (runMain now fetch file).fileAfter = file ∧
    LogEvent.noNewIpos (max_current_id (allData.map Entry.ipoId)) (get_last_max_id file).1
      ∈ (runMain now fetch file).logs := by
  rw [runMain_skip now fetch file allData h1 h2]
  refine ⟨rfl, rfl, rfl, ?_⟩
  simp

/-- C8 witness: fetched entries with identifiers 101 and 102 against a
prior watermark 102 — nothing is sent or written. -/
theorem c8_skip_is_pure_witness :
    (runMain "t" (.body (some 200) (some [mkEntry 101, mkEntry 102]))
      (.parsed (some 102))).sent = none ∧
    (runMain "t" (.body (some 200) (some [mkEntry 101, mkEntry 102]))
      (.parsed (some 102))).written = none ∧
    (runMain "t" (.body (some 200) (some [mkEntry 101, mkEntry 102]))
      (.parsed (some 102))).fileAfter = .parsed (some 102) ∧
    LogEvent.noNewIpos
        (max_current_id (([mkEntry 101, mkEntry 102]).map Entry.ipoId))
        (get_last_max_id (.parsed (some 102))).1
      ∈ (runMain "t" (.body (some 200) (some [mkEntry 101, mkEntry 102]))
          (.parsed (some 102))).logs :=
  c8_skip_is_pure "t" (.body (some 200) (some [mkEntry 101, mkEntry 102]))
    (.parsed (some 102)) [mkEntry 101, mkEntry 102] (by decide) (by decide)

/-- C10: the orchestrator writes the state file only when new entries
exist, the written value strictly exceeds the watermark read before the
run, and a response carrying an empty `result.data` array is handled
exactly like a failed or invalid response, so an empty page can never
overwrite the persisted watermark with 0. -/
theorem c10_write_guard (now : String) (fetch : FetchOutcome) (file : FileContent) :
    (∀ v : Int, (runMain now fetch file).written = some v →
      (runMain now fetch file).newEntries ≠ [] ∧ (get_last_max_id file).1 < v) ∧
    (∀ sc : Option Int, runMain now (.body sc (some [])) file = runMain now .failed file) := by
  constructor
  · intro v hv
    cases hu : usableData fetch with
    | none =>
      rw [runMain_no_usable now fetch file hu] at hv
      cases hv
    | some allData =>
      by_cases hnd : new_data allData (get_last_max_id file).1 = []
      · rw [runMain_skip now fetch file allData hu hnd] at hv
        cases hv
      · rw [runMain_notify now fetch file allData hu hnd] at hv ⊢
        have hv2 : max_current_id (allData.map Entry.ipoId) = v := by
          simpa using hv
        obtain ⟨e, he⟩ := List.exists_mem_of_ne_nil _ hnd
        have hmem : e ∈ allData ∧ (get_last_max_id file).1 < e.ipoId := by
          simpa [new_data, List.mem_filter] using he
        have hle : e.ipoId ≤ max_current_id (allData.map Entry.ipoId) :=
          le_max_current_id (allData.map Entry.ipoId) e.ipoId
            (List.mem_map_of_mem Entry.ipoId hmem.1)
        exact ⟨hnd, hv2 ▸ lt_of_lt_of_le hmem.2 hle⟩
  · intro sc
    have h1 : usableData (.body sc (some [])) = none := by
      cases sc with
      | none => rfl
      | some n =>
        by_cases hn : n = 200
        · subst hn; rfl
        · simp [usableData, hn]
    rw [runMain_no_usable now _ file h1, runMain_no_usable now .failed file rfl]

/-- C10 witness: a run that does write — one fetched entry with
identifier 5 against watermark 3 — has nonempty new entries and writes a
strictly larger value; an empty page against the same state behaves like
a failed fetch. -/
theorem c10_write_guard_witness :
    ((runMain "t" (.body (some 200) (some [mkEntry 5])) (.parsed (some 3))).newEntries ≠ [] ∧
      (get_last_max_id (.parsed (some 3))).1 < 5) ∧
    runMain "t" (.body (some 200) (some [])) (.parsed (some 3)) =
      runMain "t" .failed (.parsed (some 3)) :=
  ⟨(c10_write_guard "t" (.body (some 200) (some [mkEntry 5])) (.parsed (some 3))).1
      5 (by decide),
    (c10_write_guard "t" (.body (some 200) (some [mkEntry 5])) (.parsed (some 3))).2
      (some 200)⟩

/-- The full state reader agrees with the restricted one on the
restricted contents: both return the same integer and the same log
events, and the full reader does not raise there. -/
theorem get_last_max_id_full_agrees (f : FileContent) :
    get_last_max_id_full (fileContentToState f) =
      (.ok (.int (get_last_max_id f).1), (get_last_max_id f).2) := by
  cases f with
  | missing => rfl
  | malformed => rfl
  | parsed o => cases o <;> rfl

/-- C5 counterexample: three concrete state files refute the claim.  A
parseable object lacking the `last_max_id` key — the wrong_key example of
the spec — returns 0 but logs no message at all, because the dict lookup
supplies the default 0 without raising the KeyError the handler would
log; a file of parseable non-object JSON, such as a bare list, makes the
dict lookup raise AttributeError, which the except clause does not catch,
so the read does fail its caller; and a stored string is handed back
as-is, not as a usable integer. -/
theorem c5_state_read_counterexample :
    ((get_last_max_id_full (StateFile.object none)).1 = .ok (.int 0) ∧
      (get_last_max_id_full (StateFile.object none)).2 = []) ∧
    (get_last_max_id_full StateFile.nonObject).1 = .error .attributeError ∧
    (get_last_max_id_full (StateFile.object (some (.str "abc")))).1 =
      .ok (.str "abc") :=
  ⟨⟨rfl, rfl⟩, rfl, rfl⟩

/-- C5 amended: in the cases the claim enumerates the read returns 0 —
for a missing file logging an info message, for unparseable content
logging a distinguishable warning, and for a parseable object lacking the
field silently, with no log; a stored value is returned as-is, integer or
not; and the read is not total: parseable non-object JSON raises
AttributeError past the except clause, failing the caller. -/
theorem c5_state_read_amended :
    (∀ v : StoredValue,
      (get_last_max_id_full (StateFile.object (some v))).1 = .ok v) ∧
    (∀ f : StateFile, f ≠ StateFile.nonObject →
      (∀ v : StoredValue, f ≠ StateFile.object (some v)) →
      (get_last_max_id_full f).1 = .ok (.int 0)) ∧
    (get_last_max_id_full StateFile.missing).2 = [LogEvent.noStateFile] ∧
    (get_last_max_id_full StateFile.malformed).2 = [LogEvent.invalidStateFile] ∧
    LogEvent.noStateFile ≠ LogEvent.invalidStateFile ∧
    (get_last_max_id_full (StateFile.object none)).2 = [] ∧
    (get_last_max_id_full StateFile.nonObject).1 = .error .attributeError := by
  refine ⟨fun v => rfl, ?_, rfl, rfl, by decide, rfl, rfl⟩
  intro f hno h
  cases f with
  | missing => rfl
  | malformed => rfl
  | nonObject => exact absurd rfl hno
  | object o =>
    cases o with
    | none => rfl
    | some v => exact absurd rfl (h v)

/-- C5 witness: the stored integer 7 is returned as is; a missing file
reads as 0. -/
theorem c5_state_read_amended_witness :
    (get_last_max_id_full (StateFile.object (some (.int 7)))).1 = .ok (.int 7) ∧
    (get_last_max_id_full StateFile.missing).1 = .ok (.int 0) :=
  ⟨c5_state_read_amended.1 (.int 7),
    c5_state_read_amended.2.1 StateFile.missing
      (fun h => StateFile.noConfusion h)
      (fun _ h => StateFile.noConfusion h)⟩

/-- C6: the rendered payload carries `min 3 n` embeds for an input of
length `n` — exactly 3 when more than 3 entries are passed — and the
embed at each position is built from the input entry at the same
position, so the sections correspond to the first three input entries in
input order. -/
theorem c6_formatter_truncation (now : String) (l : List Entry) :
    (create_discord_embed now l).embeds.length = min 3 l.length ∧
    ∀ i : Nat, i < 3 →
      (create_discord_embed now l).embeds[i]? = l[i]?.map (buildEmbed now) := by
  constructor
  · simp [create_discord_embed]
  · intro i hi
    simp [create_discord_embed, List.getElem?_take, hi]

/-- C6 witness: four input entries render exactly three embeds, and the
first embed is built from the first entry. -/
theorem c6_formatter_truncation_witness :
    (create_discord_embed "t" [mkEntry 1, mkEntry 2, mkEntry 3, mkEntry 4]).embeds.length =
      min 3 ([mkEntry 1, mkEntry 2, mkEntry 3, mkEntry 4].length) ∧
    (create_discord_embed "t" [mkEntry 1, mkEntry 2, mkEntry 3, mkEntry 4]).embeds[0]? =
      ([mkEntry 1, mkEntry 2, mkEntry 3, mkEntry 4])[0]?.map (buildEmbed "t") :=
  ⟨(c6_formatter_truncation "t" [mkEntry 1, mkEntry 2, mkEntry 3, mkEntry 4]).1,
    (c6_formatter_truncation "t" [mkEntry 1, mkEntry 2, mkEntry 3, mkEntry 4]).2
      0 (by decide)⟩

/-- C9: the delivery operation always returns normally — its result is
`ok` for every POST outcome — and on a non-2xx response it logs the
status code and response body, while on a transport failure it logs the
request target. -/
theorem c9_delivery_never_raises (o : PostOutcome) :
    (send_discord_alert o).1 = Except.ok () ∧
    (∀ s body, o = .response s body → isSuccessStatus s = false →
      (send_discord_alert o).2 = [.sendingWebhook, .webhookFailed s body]) ∧
    (∀ t, o = .transportFailure t →
      (send_discord_alert o).2 = [.sendingWebhook, .requestFailed t]) := by
  cases o with
  | response s body =>
    refine ⟨?_, ?_, ?_⟩
    · by_cases h : isSuccessStatus s <;> simp [send_discord_alert, postAndRaise, h]
    · intro s2 b2 heq hfail
      cases heq
      simp [send_discord_alert, postAndRaise, hfail]
    · intro t heq
      cases heq
  | transportFailure t =>
    refine ⟨rfl, ?_, ?_⟩
    · intro s b heq; cases heq
    · intro t2 heq; cases heq; rfl

/-- C9 witness: a 404 response logs its status and body and still
returns `ok`; a connection failure logs the target and returns `ok`. -/
theorem c9_delivery_never_raises_witness :
    (send_discord_alert (.response 404 "not found")).1 = Except.ok () ∧
    (send_discord_alert (.response 404 "not found")).2 =
      [.sendingWebhook, .webhookFailed 404 "not found"] ∧
    (send_discord_alert (.transportFailure "https://discord.example/webhook")).2 =
      [.sendingWebhook, .requestFailed "https://discord.example/webhook"] :=
  ⟨(c9_delivery_never_raises (.response 404 "not found")).1,
    (c9_delivery_never_raises (.response 404 "not found")).2.1 404 "not found" rfl (by decide),
    (c9_delivery_never_raises (.transportFailure "https://discord.example/webhook")).2.2
      "https://discord.example/webhook" rfl⟩

end IpoNotifier
